import Mathlib

/-!
Verification development for the GDDI payload-generation system
(package aurora_iqvia).  The Python source is shallowly embedded:
Python strings are modelled as Lean `String` (sequences of code points,
manipulated through their `List Char` data), Python numbers used for
money as `ℚ`, database NULL / missing row attributes as `Option`, and
dictionaries as association lists.  Each definition carries a reference
to the source location it translates.  Recursions that consume more than
one list element per step take an explicit fuel argument (always called
with the list length, which is an upper bound on the number of steps) so
that every definition evaluates by kernel reduction.
-/

set_option maxRecDepth 100000

/-- characters for which Python `str.isdigit` holds, restricted to ASCII.
Models the `ch.isdigit()` test of `utils.only_digits` (utils.py:11);
non-ASCII Unicode digit characters are outside the modelled alphabet. -/
def pyIsDigit (c : Char) : Bool := c.isDigit

/-- whitespace characters recognised by Python `str.split()` /
`str.isspace` (the full fixed Unicode set). -/
def pyIsSpace (c : Char) : Bool :=
  ([0x9, 0xa, 0xb, 0xc, 0xd, 0x1c, 0x1d, 0x1e, 0x1f, 0x20, 0x85, 0xa0,
    0x1680, 0x2000, 0x2001, 0x2002, 0x2003, 0x2004, 0x2005, 0x2006, 0x2007,
    0x2008, 0x2009, 0x200a, 0x2028, 0x2029, 0x202f, 0x205f, 0x3000] : List Nat).contains c.toNat

/-- Python slicing `s[:n]` on a string. -/
def takeChars (s : String) (n : Nat) : String := ⟨s.data.take n⟩

/-- Python `str.zfill`: left-pad with zeros to width `w` (a leading sign
stays in front of the padding, as in Python). -/
def pyZfill (s : String) (w : Nat) : String :=
  if w ≤ s.length then s
  else
    match s.data with
    | c :: cs =>
      if c = '+' ∨ c = '-' then ⟨c :: (List.replicate (w - s.length) '0' ++ cs)⟩
      else ⟨List.replicate (w - s.length) '0' ++ s.data⟩
    | [] => ⟨List.replicate w '0'⟩

/-- utils.py:8-11 `only_digits`: keep only digit characters; falsy input
(empty string, or None which behaves identically) gives the empty string. -/
def only_digits (s : String) : String :=
  if s.isEmpty then "" else ⟨s.data.filter pyIsDigit⟩

/-- controller.py:55-74 `format_cep`: empty input gives the empty string,
otherwise the digits are zero-padded to 8 and the first 8 characters kept. -/
def format_cep (cep : String) : String :=
  if cep.isEmpty then "" else takeChars (pyZfill (only_digits cep) 8) 8

/-- controller.py:76-95 `format_cnpj`: as `format_cep` with width 14. -/
def format_cnpj (cnpj : String) : String :=
  if cnpj.isEmpty then "" else takeChars (pyZfill (only_digits cnpj) 14) 14

/-- controller.py:97-116 `format_cpf`: as `format_cep` with width 11. -/
def format_cpf (cpf : String) : String :=
  if cpf.isEmpty then "" else takeChars (pyZfill (only_digits cpf) 11) 11

/-- controller.py:118-136 `format_telefone`: digits only, truncated to 11. -/
def format_telefone (phone : String) : String :=
  if phone.isEmpty then "" else takeChars (only_digits phone) 11

/-- Python `text.encode('latin1', errors='ignore')`: characters above
U+00FF are dropped, the rest become their code-point byte. -/
def latin1_encode_ignore (l : List Char) : List Nat :=
  (l.filter (fun c => c.toNat ≤ 255)).map Char.toNat

/-- Python `bytes.decode('utf-8', errors='ignore')`: standard UTF-8
decoding where an invalid or truncated sequence is skipped (the maximal
valid subpart that was consumed is discarded and decoding resumes). -/
def utf8_decode_ignore : List Nat → List Char
  | [] => []
  | b :: rest =>
    if b < 0x80 then Char.ofNat b :: utf8_decode_ignore rest
    else if 0xC2 ≤ b ∧ b ≤ 0xDF then
      match rest with
      | [] => []
      | c1 :: rest2 =>
        if 0x80 ≤ c1 ∧ c1 ≤ 0xBF then
          Char.ofNat ((b - 0xC0) * 64 + (c1 - 0x80)) :: utf8_decode_ignore rest2
        else utf8_decode_ignore (c1 :: rest2)
    else if 0xE0 ≤ b ∧ b ≤ 0xEF then
      match rest with
      | [] => []
      | c1 :: rest2 =>
        if (if b = 0xE0 then 0xA0 else 0x80) ≤ c1 ∧ c1 ≤ (if b = 0xED then 0x9F else 0xBF) then
          match rest2 with
          | [] => []
          | c2 :: rest3 =>
            if 0x80 ≤ c2 ∧ c2 ≤ 0xBF then
              Char.ofNat ((b - 0xE0) * 4096 + (c1 - 0x80) * 64 + (c2 - 0x80)) :: utf8_decode_ignore rest3
            else utf8_decode_ignore (c2 :: rest3)
        else utf8_decode_ignore (c1 :: rest2)
    else if 0xF0 ≤ b ∧ b ≤ 0xF4 then
      match rest with
      | [] => []
      | c1 :: rest2 =>
        if (if b = 0xF0 then 0x90 else 0x80) ≤ c1 ∧ c1 ≤ (if b = 0xF4 then 0x8F else 0xBF) then
          match rest2 with
          | [] => []
          | c2 :: rest3 =>
            if 0x80 ≤ c2 ∧ c2 ≤ 0xBF then
              match rest3 with
              | [] => []
              | c3 :: rest4 =>
                if 0x80 ≤ c3 ∧ c3 ≤ 0xBF then
                  Char.ofNat ((b - 0xF0) * 262144 + (c1 - 0x80) * 4096 + (c2 - 0x80) * 64 + (c3 - 0x80)) :: utf8_decode_ignore rest4
                else utf8_decode_ignore (c3 :: rest4)
            else utf8_decode_ignore (c2 :: rest3)
        else utf8_decode_ignore (c1 :: rest2)
    else utf8_decode_ignore rest

/-- controller.py:156-161: the fixed table of garbled-substring
replacements, in source order (note the fourth key is the letter Ã
followed by a plain space). -/
def replacements : List (List Char × List Char) :=
  [("SÃ£O".data, "SÃO".data), ("SÃƒO".data, "SÃO".data), ("SÃ\x83O".data, "SÃO".data),
   ("Ã ".data, "À".data), ("Ã¡".data, "á".data), ("Ã¢".data, "â".data),
   ("Ã£".data, "ã".data), ("Ã¤".data, "ä".data), ("Ã§".data, "ç".data),
   ("Ã©".data, "é".data), ("Ãª".data, "ê".data), ("Ã\xad".data, "í".data),
   ("Ã³".data, "ó".data), ("Ã´".data, "ô".data), ("Ãµ".data, "õ".data),
   ("Ãº".data, "ú".data), ("Ã¼".data, "ü".data)]

/-- fuelled recursion of Python `str.replace` for a non-empty pattern
`p :: ps`: scan left to right, replacing non-overlapping occurrences.
Each step consumes at least one character, so fuel `l.length` suffices;
exhausted fuel returns the remainder unchanged. -/
def replaceAllAux (p : Char) (ps rep : List Char) : Nat → List Char → List Char
  | _, [] => []
  | 0, l => l
  | fuel + 1, c :: cs =>
    if List.isPrefixOf (p :: ps) (c :: cs) then
      rep ++ replaceAllAux p ps rep fuel ((c :: cs).drop (ps.length + 1))
    else c :: replaceAllAux p ps rep fuel cs

/-- Python `str.replace(pat, rep)` on code-point lists (an empty pattern
inserts the replacement around every character, as in Python; the table
above only has non-empty patterns). -/
def replaceAll (l pat rep : List Char) : List Char :=
  match pat with
  | [] => rep ++ l.foldr (fun c acc => c :: rep ++ acc) []
  | p :: ps => replaceAllAux p ps rep l.length l

/-- controller.py:162-163: the replacement loop over the fixed table. -/
def applyReplacements (l : List Char) : List Char :=
  replacements.foldl (fun t kv => replaceAll t kv.1 kv.2) l

/-- fuelled recursion of Python `text.split()`: maximal runs of
non-whitespace characters.  Fuel `l.length` suffices. -/
def pyWordsAux : Nat → List Char → List (List Char)
  | _, [] => []
  | 0, _ => []
  | fuel + 1, c :: cs =>
    if pyIsSpace c then pyWordsAux fuel cs
    else ((c :: cs).takeWhile (fun x => !pyIsSpace x)) ::
           pyWordsAux fuel ((c :: cs).dropWhile (fun x => !pyIsSpace x))

/-- Python `text.split()`. -/
def pyWords (l : List Char) : List (List Char) := pyWordsAux l.length l

/-- Python `" ".join(ws)`. -/
def joinWords : List (List Char) → List Char
  | [] => []
  | [w] => w
  | w :: ws => w ++ (' ' :: joinWords ws)

/-- controller.py:164 `" ".join(text.split())`: collapse internal
whitespace runs to single spaces and trim. -/
def collapse_ws (l : List Char) : List Char := joinWords (pyWords l)

/-- controller.py:138-164 `clean_text`: empty input maps to the empty
string; if the text contains the replacement character or any code point
above 1000 it is re-encoded latin-1 / re-decoded UTF-8 (both with
errors ignored; this never fails, so the source's dead `except` branch
has no counterpart); then the fixed replacement table is applied and
whitespace is collapsed. -/
def clean_text (text : String) : String :=
  if text.isEmpty then ""
  else
    ⟨collapse_ws (applyReplacements
      (if text.data.contains '�' || text.data.any (fun c => 1000 < c.toNat)
       then utf8_decode_ignore (latin1_encode_ignore text.data) else text.data))⟩

/-- controller.py:166-180 `validate_field_length`: clean then truncate to
`max_length` when longer (a `None` input, mapped to `""` by the source's
first guard, behaves exactly like the empty string here). -/
def validate_field_length (value : String) (max_length : Nat) : String :=
  if max_length < (clean_text value).length then takeChars (clean_text value) max_length
  else clean_text value

/-- controller rounding `round(float(x), 2)`: two-decimal rounding on
exact rationals (Python rounds floats half-to-even; the difference can
only appear at exact half-cent values, which none of the statements
below depend on). -/
def round2 (q : ℚ) : ℚ := (round (q * 100) : ℤ) / 100

/-- auxiliary lookup value built by run_period (controller.py:504-509):
identifying code and reference price for one product. -/
structure EntradaInfo where
  ean : String
  preco : ℚ
deriving Repr, DecidableEq

/-- one row of the supplementary row-set SQL_ENTRADA_PRODUTOS
(controller.py:505-509); CODPROD is accessed without a default there. -/
structure EntradaRow where
  CODPROD : Int
  CODAUXILIAR : Option String := none
  PTABELA : Option ℚ := none

/-- Python dict assignment `d[k] = v` on an association list
(later assignments overwrite earlier ones). -/
def assocSet (d : List (Int × EntradaInfo)) (k : Int) (v : EntradaInfo) :
    List (Int × EntradaInfo) :=
  match d with
  | [] => [(k, v)]
  | (k0, v0) :: rest => if k0 = k then (k, v) :: rest else (k0, v0) :: assocSet rest k v

/-- controller.py:504-509: the `dados_entrada` dictionary built from the
supplementary row-set. -/
def mkDadosEntrada (rows : List EntradaRow) : List (Int × EntradaInfo) :=
  rows.foldl
    (fun d r => assocSet d r.CODPROD { ean := r.CODAUXILIAR.getD "", preco := r.PTABELA.getD 0 })
    []

/-- dictionary lookup `d.get(k)` / `k in d`. -/
def dadosLookup (d : List (Int × EntradaInfo)) (k : Int) : Option EntradaInfo :=
  List.lookup k d

/- -------- row shapes (columns of the seven row-sets; `Option` marks a
column the code reads through `getattr(_, _, default)` or that can be
NULL, both of which the mappers default in the same way). -------- -/

/-- one row of the branch row-set (SQL_FILIAL), controller.py:212-231. -/
structure FilRow where
  CODFILIAL : String := ""
  TELEFONE : Option String := none
  CGC : Option String := none
  RAZAOSOCIAL : Option String := none
  FANTASIA_FILIAL : Option String := none
  ENDERECOFILIAL : Option String := none
  CEP : Option String := none
  /-- `none` models a row-set without the CIDADE column (`hasattr` false). -/
  CIDADE : Option String := none
  MUNICIPIO : Option String := none
  UF : Option String := none

/-- one row of the customer row-set (SQL_CLIENTES), controller.py:236-260. -/
structure CliRow where
  CODCLI : Option Int := none
  CGCENT : Option String := none
  TELENT : Option String := none
  CLIENTE : Option String := none
  FANTASIA_CLIENT : Option String := none
  ENDERECOCLI : Option String := none
  CEPENT : Option String := none
  MUNICENT : Option String := none
  ESTENT : Option String := none

/-- one row of the distinct-product row-set (SQL_PRODUTOS_UNICOS),
controller.py:266-290. -/
structure ProdRow where
  CODAUXILIAR : Option String := none
  PTABELA : Option ℚ := none
  /-- `none` models both a missing CODPROD attribute and a NULL value. -/
  CODPROD : Option Int := none
  NBM : Option String := none
  DESCRICAO : Option String := none
  FORNECEDOR : Option String := none

/-- one row of the sales movement row-set (SQL_MOV), controller.py:295-355. -/
structure MovRow where
  CODFILIAL : String := ""
  CODCLI : String := ""
  CODPROD : String := ""
  /-- the already-rendered date string (the source formats a date object
  or slices `str(...)` to 10 characters). -/
  DTSAIDA : Option String := none
  PUNIT : Option ℚ := none
  PTABELA : Option ℚ := none
  BRINDE : Option String := none
  CHAVENFE : Option String := none
  SERIE : Option Int := none
  NUMNOTA : Option Int := none
  PERCICM : Option ℚ := none
  VLICMS : Option ℚ := none
  SITTRIBUT : Option String := none
  QT : Option Int := none

/-- one row of the returns row-set (SQL_DEVOLUCOES), controller.py:360-371. -/
structure DevRow where
  CODFILIAL : String := ""
  CODCLI : String := ""
  CODPROD : String := ""
  DTSAIDA : Option String := none
  QT : Option Int := none

/-- one row of the inventory row-set (SQL_ESTOQUE), controller.py:376-389. -/
structure EstRow where
  CODFILIAL : String := ""
  CODAUXILIAR : Option String := none
  /-- `none` models `hasattr(r, 'CODPROD')` being false. -/
  CODPROD : Option Int := none
  ESTOQUEATUAL : Option Int := none

/- -------- canonical output records -------- -/

/-- nested address object emitted for branches and customers. -/
structure Ender where
  descr : String
  compl : String
  cep : String
  cidade : String
  uf : String
  tel : String
deriving Repr, DecidableEq

/-- establishment record (controller.py:214-231). -/
structure Estabelecimento where
  cod : String
  doc : String
  nome : String
  nomeOfc : String
  tipo : String
  tipoCaptacaoPrescricao : Int
  ender : Ender
  codIqvia : String
deriving Repr, DecidableEq

/-- customer record (controller.py:245-260). -/
structure Cliente where
  cod : String
  doc : String
  nome : String
  nomeOfc : String
  tipo : Int
  profSaude : Int
  ender : Ender
deriving Repr, DecidableEq

/-- product record (controller.py:278-290). -/
structure Produto where
  cod : String
  eanSellIn : String
  eanSellOut : String
  ncm : String
  apresent : String
  fabr : String
  precoFabrica : ℚ
  dispViaFarmaciaPopular : String
  dispViaPbm : String
  marcaPropria : String
deriving Repr, DecidableEq

/-- the `preco.valor` sub-object of a sale (controller.py:333-336). -/
structure PrecoValor where
  liquido : ℚ
  bruto : ℚ
deriving Repr, DecidableEq

/-- the `subsTrib` sub-object (controller.py:342). -/
structure SubsTrib where
  valor : Int
  embutidoPreco : Int
  cest : String
deriving Repr, DecidableEq

/-- the `preco.icms` sub-object (controller.py:337-343). -/
structure Icms where
  isento : Int
  aliq : ℚ
  valor : ℚ
  cst : String
  subsTrib : SubsTrib
deriving Repr, DecidableEq

/-- the `preco.desconto` sub-object attached to free-goods lines
(controller.py:349-353). -/
structure Desconto where
  paraConsumidorFinal : Int
  perc : ℚ
  valor : ℚ
deriving Repr, DecidableEq

/-- the `preco` sub-object of a sale; `desconto` is present only on
free-goods lines, modelled with `Option`. -/
structure Preco where
  valor : PrecoValor
  icms : Icms
  desconto : Option Desconto
deriving Repr, DecidableEq

/-- sale record (controller.py:312-345). -/
structure Venda where
  codEstab : String
  codCliente : String
  comPrescricao : Int
  paraUsoProfSaude : Int
  codProfSaude : String
  codProd : String
  dt : String
  qt : Int
  ecommerce : Int
  meio : Int
  docTipo : Int
  docFiscalSerie : String
  docFiscalNum : Int
  danfe : String
  vendaJudic : Int
  tipoPagto : Int
  preco : Preco
deriving Repr, DecidableEq

/-- return/cancellation record (controller.py:362-371). -/
structure Devolucao where
  codEstab : String
  codCliente : String
  codProfSaude : String
  codProd : String
  comPrescricao : Int
  ecommerce : Int
  dt : String
  qt : Int
deriving Repr, DecidableEq

/-- inventory record (controller.py:384-389). -/
structure EstoqueItem where
  codEstab : String
  codProd : String
  dt : String
  qt : Int
deriving Repr, DecidableEq

/- -------- entity mappers (the loops of build_payload) -------- -/

/-- controller.py:212-231: one establishment record per branch row. -/
def estabOfFil (codiqvia : String) (r : FilRow) : Estabelecimento :=
  { cod := validate_field_length r.CODFILIAL 14
    doc := format_cnpj (r.CGC.getD "")
    nome := validate_field_length (r.RAZAOSOCIAL.getD "") 40
    nomeOfc := validate_field_length (r.FANTASIA_FILIAL.getD "") 40
    tipo := "CD"
    tipoCaptacaoPrescricao := 0
    ender :=
      { descr := validate_field_length (r.ENDERECOFILIAL.getD "") 70
        compl := ""
        cep := format_cep (r.CEP.getD "")
        cidade :=
          match r.CIDADE with
          | some c => validate_field_length c 40
          | none => validate_field_length (r.MUNICIPIO.getD "") 40
        uf := validate_field_length (r.UF.getD "") 2
        tel := format_telefone (r.TELEFONE.getD "") }
    codIqvia := validate_field_length codiqvia 10 }

/-- controller.py:236-260: one customer record per customer row; the
document format and the person/business type flag follow the digit count. -/
def clienteOfCli (r : CliRow) : Cliente :=
  let docRaw := r.CGCENT.getD ""
  let digits := only_digits docRaw
  { cod := validate_field_length (toString (r.CODCLI.getD 0)) 14
    doc := if 12 ≤ digits.length then format_cnpj docRaw else format_cpf docRaw
    nome := validate_field_length (r.CLIENTE.getD "") 40
    nomeOfc := validate_field_length (r.FANTASIA_CLIENT.getD "") 40
    tipo := if digits.length = 14 then 2 else 1
    profSaude := 0
    ender :=
      { descr := validate_field_length (r.ENDERECOCLI.getD "") 70
        compl := ""
        cep := format_cep (r.CEPENT.getD "")
        cidade := validate_field_length (r.MUNICENT.getD "") 40
        uf := validate_field_length (r.ESTENT.getD "") 2
        tel := format_telefone (r.TELENT.getD "") } }

/-- controller.py:267-275: the identifying code of a product row,
primary-first (`CODAUXILIAR or ""`), with fallback to the auxiliary
lookup entry when the primary is empty and the entry's code is truthy. -/
def resolvedEanProd (r : ProdRow) (lk : List (Int × EntradaInfo)) : String :=
  let primary := r.CODAUXILIAR.getD ""
  match r.CODPROD with
  | some k =>
    match dadosLookup lk k with
    | some e => if primary = "" ∧ e.ean ≠ "" then e.ean else primary
    | none => primary
  | none => primary

/-- controller.py:268-275: the reference price of a product row, rounded
primary value with fallback to the lookup entry's truthy price. -/
def resolvedPrecoProd (r : ProdRow) (lk : List (Int × EntradaInfo)) : ℚ :=
  let p := round2 (r.PTABELA.getD 0)
  match r.CODPROD with
  | some k =>
    match dadosLookup lk k with
    | some e => if p = 0 ∧ e.preco ≠ 0 then e.preco else p
    | none => p
  | none => p

/-- the `str(r.CODPROD)` rendering of a row's product identifier (the
source reads the attribute directly; an absent attribute is rendered as
the empty string here). -/
def codprodStr (o : Option Int) : String :=
  match o with
  | some k => toString k
  | none => ""

/-- controller.py:266-290: the product mapper for one row; `none` means
the row is dropped (no resolvable identifying code). -/
def prodRecord (r : ProdRow) (lk : List (Int × EntradaInfo)) : Option Produto :=
  if resolvedEanProd r lk = "" then none
  else some
    { cod := validate_field_length (codprodStr r.CODPROD) 13
      eanSellIn := validate_field_length (resolvedEanProd r lk) 14
      eanSellOut := validate_field_length (resolvedEanProd r lk) 14
      ncm := validate_field_length (r.NBM.getD "") 8
      apresent := validate_field_length (r.DESCRICAO.getD "") 70
      fabr := validate_field_length (r.FORNECEDOR.getD "") 40
      precoFabrica := round2 (resolvedPrecoProd r lk)
      dispViaFarmaciaPopular := "0"
      dispViaPbm := "0"
      marcaPropria := "0" }

/-- controller.py:295-355: the sale mapper for one movement row,
including the free-goods (brinde) classification and price substitution. -/
def vendaOfMov (r : MovRow) : Venda :=
  let dtS := takeChars (r.DTSAIDA.getD "") 10
  let vlUnit := round2 (r.PUNIT.getD 0)
  let ehBrinde := vlUnit = 0 ∨ r.BRINDE.getD "N" = "S"
  let precoParaJson := if ehBrinde ∧ vlUnit = 0 then round2 (r.PTABELA.getD 0) else vlUnit
  let docTipo : Int := match r.CHAVENFE with | some s => if s = "" then 0 else 2 | none => 0
  { codEstab := validate_field_length r.CODFILIAL 14
    codCliente := validate_field_length r.CODCLI 14
    comPrescricao := 0
    paraUsoProfSaude := 0
    codProfSaude := "0"
    codProd := validate_field_length r.CODPROD 13
    dt := dtS
    qt := r.QT.getD 0
    ecommerce := 0
    meio := 5
    docTipo := docTipo
    docFiscalSerie := toString (r.SERIE.getD 0)
    docFiscalNum := r.NUMNOTA.getD 0
    danfe := r.CHAVENFE.getD ""
    vendaJudic := 0
    tipoPagto := 0
    preco :=
      { valor := { liquido := precoParaJson, bruto := precoParaJson }
        icms :=
          { isento := 0
            aliq := round2 (r.PERCICM.getD 0)
            valor := round2 (r.VLICMS.getD 0)
            cst := (let s := r.SITTRIBUT.getD "60"; if s = "" then "60" else s)
            subsTrib := { valor := 0, embutidoPreco := 0, cest := "0" } }
        desconto :=
          if ehBrinde then
            some { paraConsumidorFinal := 12, perc := 100, valor := precoParaJson }
          else none } }

/-- controller.py:360-371: the return mapper for one returns row; the
quantity is `int(getattr(r, "QT", 0) or 0)`, passed through unchanged. -/
def devolucaoOfRow (r : DevRow) : Devolucao :=
  { codEstab := validate_field_length r.CODFILIAL 14
    codCliente := validate_field_length r.CODCLI 14
    codProfSaude := "0"
    codProd := validate_field_length r.CODPROD 13
    comPrescricao := 0
    ecommerce := 0
    dt := takeChars (r.DTSAIDA.getD "") 10
    qt := r.QT.getD 0 }

/-- controller.py:377-381: the identifying code of an inventory row,
primary-first with the same auxiliary-lookup fallback as products. -/
def resolvedEanEst (r : EstRow) (lk : List (Int × EntradaInfo)) : String :=
  let primary := r.CODAUXILIAR.getD ""
  match r.CODPROD with
  | some k =>
    match dadosLookup lk k with
    | some e => if primary = "" ∧ e.ean ≠ "" then e.ean else primary
    | none => primary
  | none => primary

/-- controller.py:376-389: the inventory mapper for one row; `none` means
the row is dropped (no resolvable identifying code). -/
def estRecord (dataArquivo : String) (r : EstRow) (lk : List (Int × EntradaInfo)) :
    Option EstoqueItem :=
  if resolvedEanEst r lk = "" then none
  else some
    { codEstab := validate_field_length r.CODFILIAL 14
      codProd := validate_field_length (codprodStr r.CODPROD) 13
      dt := dataArquivo
      qt := r.ESTOQUEATUAL.getD 0 }

/-- the payload envelope (controller.py:392-409); the eight sections this
business line never populates are plain placeholder lists. -/
structure Payload where
  data : String
  estabelecimentos : List Estabelecimento
  clientes : List Cliente
  produtos : List Produto
  vendas : List Venda
  vendasDevolucoesCancelamentos : List Devolucao
  estoque : List EstoqueItem
  profissionaisSaude : List Unit
  pacientes : List Unit
  fornecedores : List Unit
  planosSaude : List Unit
  laboratoriosPBM : List Unit
  compras : List Unit
  comprasDevolucoesCancelamentos : List Unit
  prescricoes : List Unit

/-- controller.py:185-410 `build_payload`: the six mappers composed into
the envelope for one reference date (`dataArquivo` is the already
rendered `%Y-%m-%d` string). -/
def build_payload (mov : List MovRow) (dev : List DevRow) (fil : List FilRow)
    (cli : List CliRow) (est : List EstRow) (produtos_unicos : List ProdRow)
    (dados_entrada : List (Int × EntradaInfo)) (dataArquivo : String)
    (codiqvia : String) : Payload :=
  { data := dataArquivo
    estabelecimentos := fil.map (estabOfFil codiqvia)
    clientes := cli.map clienteOfCli
    produtos := produtos_unicos.filterMap (fun r => prodRecord r dados_entrada)
    vendas := mov.map vendaOfMov
    vendasDevolucoesCancelamentos := dev.map devolucaoOfRow
    estoque := est.filterMap (fun r => estRecord dataArquivo r dados_entrada)
    profissionaisSaude := []
    pacientes := []
    fornecedores := []
    planosSaude := []
    laboratoriosPBM := []
    compras := []
    comprasDevolucoesCancelamentos := []
    prescricoes := [] }

/- -------- structural validator (validator.py) -------- -/

mutual

/-- dynamic JSON-like values as the validator sees them: the payload side
carries data, the spec side uses `str` leaves as primitive type names.
Lists and objects are their own spine types so that every function below
is a structural recursion. -/
inductive JValue where
  | str : String → JValue
  | int : Int → JValue
  | float : ℚ → JValue
  | null : JValue
  | list : JList → JValue
  | obj : JObj → JValue

/-- a JSON array. -/
inductive JList where
  | nil : JList
  | cons : JValue → JList → JList

/-- a JSON object: an ordered key-value sequence (Python dicts preserve
insertion order and have unique keys). -/
inductive JObj where
  | nil : JObj
  | cons : String → JValue → JObj → JObj

end

/-- build a JSON array from a Lean list. -/
def JList.ofList : List JValue → JList
  | [] => .nil
  | v :: vs => .cons v (JList.ofList vs)

/-- build a JSON object from a Lean association list. -/
def JObj.ofList : List (String × JValue) → JObj
  | [] => .nil
  | (k, v) :: kvs => .cons k v (JObj.ofList kvs)

mutual

/-- node count of a JSON value (used as recursion fuel below). -/
def jsizeV : JValue → Nat
  | .str _ => 1
  | .int _ => 1
  | .float _ => 1
  | .null => 1
  | .list l => 1 + jsizeL l
  | .obj o => 1 + jsizeO o

/-- node count of a JSON array. -/
def jsizeL : JList → Nat
  | .nil => 1
  | .cons v rest => 1 + jsizeV v + jsizeL rest

/-- node count of a JSON object. -/
def jsizeO : JObj → Nat
  | .nil => 1
  | .cons _ v rest => 1 + jsizeV v + jsizeO rest

end

/-- Python `type(obj).__name__` for the modelled runtime types. -/
def typeName : JValue → String
  | .str _ => "str"
  | .int _ => "int"
  | .float _ => "float"
  | .list _ => "list"
  | .obj _ => "dict"
  | .null => "NoneType"

/-- validator.py:62-73 `_type_ok`: runtime type check against a type
name; `float` also accepts integers; unknown names accept anything. -/
def type_ok (v : JValue) (tname : String) : Bool :=
  if tname = "str" then (match v with | .str _ => true | _ => false)
  else if tname = "int" then (match v with | .int _ => true | _ => false)
  else if tname = "float" then (match v with | .int _ => true | .float _ => true | _ => false)
  else if tname = "list" then (match v with | .list _ => true | _ => false)
  else if tname = "dict" then (match v with | .obj _ => true | _ => false)
  else true

/-- key lookup in a JSON object (`k in obj` / `obj[k]`). -/
def jlookup (kvs : JObj) (k : String) : Option JValue :=
  match kvs with
  | .nil => none
  | .cons k0 v rest => if k0 = k then some v else jlookup rest k

mutual

/-- validator.py:75-100 `_validate_obj`, indexed by a fuel so that the
mutual recursion is structural (on the fuel) and evaluates by kernel
reduction.  Every recursive call consumes one unit; a fuel of
`jsizeV o + jsizeV spec` always suffices (each step consumes a spec node,
or a payload node paired with a spec node), and the wrapper below
supplies it. -/
def validate_objF : Nat → JValue → JValue → String → List String
  | 0, _, _, _ => []
  | fuel + 1, o, spec, path =>
    match spec with
    | .obj kvs =>
      match o with
      | .obj okvs => validateKeysF fuel okvs kvs path
      | _ => [path ++ ": esperado objeto, obtido " ++ typeName o]
    | .list spl =>
      match o with
      | .list items =>
        match spl with
        | .nil => []
        | .cons tmpl _ => validateItemsF fuel 2000 0 items tmpl path
      | _ => [path ++ ": esperado lista, obtido " ++ typeName o]
    | .str t =>
      if type_ok o t then [] else [path ++ ": tipo esperado " ++ t ++ ", obtido " ++ typeName o]
    | _ => []

/-- the `for k, sub_spec in spec.items()` loop of `_validate_obj`
(validator.py:81-85). -/
def validateKeysF : Nat → JObj → JObj → String → List String
  | 0, _, _, _ => []
  | fuel + 1, okvs, specl, path =>
    match specl with
    | .nil => []
    | .cons k sub restSpec =>
      (match jlookup okvs k with
       | none => [path ++ "." ++ k ++ ": campo obrigatório ausente"]
       | some v => validate_objF fuel v sub (path ++ "." ++ k)) ++
        validateKeysF fuel okvs restSpec path

/-- the `for i, item in enumerate(obj[:2000])` loop of `_validate_obj`
(validator.py:93-94); `remaining` realises the 2000-element cap,
`i` the enumeration index. -/
def validateItemsF : Nat → Nat → Nat → JList → JValue → String → List String
  | 0, _, _, _, _, _ => []
  | fuel + 1, remaining, i, items, tmpl, path =>
    match items with
    | .nil => []
    | .cons item rest =>
      match remaining with
      | 0 => []
      | rem + 1 =>
        validate_objF fuel item tmpl (path ++ "[" ++ toString i ++ "]") ++
          validateItemsF fuel rem (i + 1) rest tmpl path

end

/-- validator.py:75-100 `_validate_obj`. -/
def validate_obj (o : JValue) (spec : JValue) (path : String) : List String :=
  validate_objF (jsizeV o + jsizeV spec) o spec path

/-- the shared address sub-spec of validator.py:18 and 23. -/
def ENDER_SPEC : JValue :=
  .obj (JObj.ofList
    [("descr", .str "str"), ("cep", .str "str"), ("cidade", .str "str"),
     ("uf", .str "str"), ("tel", .str "str")])

/-- validator.py:14-38 `FALLBACK_SPEC`, transcribed with its key order. -/
def FALLBACK_SPEC : JValue :=
  .obj (JObj.ofList
    [("data", .str "str"),
     ("estabelecimentos", .list (JList.ofList
       [.obj (JObj.ofList
         [("cod", .str "str"), ("doc", .str "str"), ("nome", .str "str"),
          ("nomeOfc", .str "str"), ("tipo", .str "str"),
          ("ender", ENDER_SPEC),
          ("codIqvia", .str "str"), ("tipoCaptacaoPrescricao", .str "int")])])),
     ("clientes", .list (JList.ofList
       [.obj (JObj.ofList
         [("tipo", .str "int"), ("cod", .str "str"), ("profSaude", .str "int"),
          ("doc", .str "str"), ("nome", .str "str"), ("nomeOfc", .str "str"),
          ("ender", ENDER_SPEC)])])),
     ("produtos", .list (JList.ofList
       [.obj (JObj.ofList
         [("cod", .str "str"), ("eanSellIn", .str "str"), ("eanSellOut", .str "str"),
          ("ncm", .str "str"), ("apresent", .str "str"), ("fabr", .str "str"),
          ("precoFabrica", .str "float"), ("dispViaFarmaciaPopular", .str "str"),
          ("dispViaPbm", .str "str"), ("marcaPropria", .str "str")])])),
     ("vendas", .list (JList.ofList
       [.obj (JObj.ofList
         [("codEstab", .str "str"), ("codCliente", .str "str"), ("comPrescricao", .str "int"),
          ("paraUsoProfSaude", .str "int"), ("codProfSaude", .str "str"),
          ("codProd", .str "str"), ("dt", .str "str"), ("qt", .str "int"),
          ("ecommerce", .str "int"), ("meio", .str "int"), ("docTipo", .str "int"),
          ("docFiscalSerie", .str "str"), ("docFiscalNum", .str "int"),
          ("danfe", .str "str"), ("vendaJudic", .str "int"), ("tipoPagto", .str "int"),
          ("preco", .obj (JObj.ofList
            [("valor", .obj (JObj.ofList [("liquido", .str "float"), ("bruto", .str "float")])),
             ("icms", .obj (JObj.ofList
               [("isento", .str "int"), ("aliq", .str "float"), ("valor", .str "float"),
                ("cst", .str "str"),
                ("subsTrib", .obj (JObj.ofList
                  [("valor", .str "int"), ("embutidoPreco", .str "int"),
                   ("cest", .str "str")]))])) ]))])])),
     ("estoque", .list (JList.ofList
       [.obj (JObj.ofList
         [("codEstab", .str "str"), ("codProd", .str "str"), ("dt", .str "str"),
          ("qt", .str "int")])]))])

/-- validator.py:102-110 `validate_payload`: the explicit first-level
required-key loop followed by the recursive walk. -/
def validate_payload (payload : JObj) (spec : JValue) : List String :=
  (["data", "estabelecimentos", "clientes", "produtos", "vendas", "estoque"].flatMap
    (fun k => if (jlookup payload k).isNone then ["$." ++ k ++ ": ausente"] else []))
    ++ validate_obj (.obj payload) spec "$"

/-- a discrepancy message names a path when the path is a prefix of the
message (every message of the validator starts with its path). -/
def namesPath (m p : String) : Bool := List.isPrefixOf p.data m.data

/- -------- period orchestrator (controller.py:458-585, utils.py:19-23) -------- -/

/-- utils.py:19-23 `daterange`: the dates from `d0` to `d1` inclusive
(dates modelled as day numbers; this is the closed form of the source's
while-loop `cur ≤ d1, cur += 1 day`). -/
def daterange (d0 d1 : Int) : List Int :=
  (List.range (d1 + 1 - d0).toNat).map (fun i => d0 + i)

/-- the seven row-sets the external data provider returns for one day
(controller.py:486-502); the provider itself is out of scope. -/
structure RowSets where
  mov : List MovRow := []
  dev : List DevRow := []
  fil : List FilRow := []
  cli : List CliRow := []
  est : List EstRow := []
  produtos_unicos : List ProdRow := []
  entradas : List EntradaRow := []

/-- one saved output file (controller.py:415-431 `save_json`): the day,
the file name `U_<CLIENTID>_<date>.json` and the payload written
(`toString dia` stands in for the `%Y%m%d` rendering). -/
structure SavedFile where
  dia : Int
  name : String
  payload : Payload

/-- observable outcome of a processing run: files written, log lines, and
whether the archive (zip) step and the upload step were entered. -/
structure RunOutcome where
  files : List SavedFile
  logs : List String
  archiveAttempted : Bool
  uploadAttempted : Bool

/-- the file saved for one day of the run (controller.py:511-530:
`build_payload` then `save_json`, executed for every day of the range). -/
def savedFileFor (fetch : Int → RowSets) (clientId codiqvia : String) (dia : Int) : SavedFile :=
  { dia := dia
    name := "U_" ++ clientId.toUpper ++ "_" ++ toString dia ++ ".json"
    payload := build_payload (fetch dia).mov (fetch dia).dev (fetch dia).fil (fetch dia).cli
      (fetch dia).est (fetch dia).produtos_unicos (mkDadosEntrada (fetch dia).entradas)
      (toString dia) codiqvia }

/-- the per-day progress log lines of the loop. -/
def dayLogsFor (d0 d1 : Int) (clientId : String) : List String :=
  (daterange d0 d1).flatMap (fun dia =>
    ["📊 Processando dia " ++ toString dia,
     "💾 JSON salvo: U_" ++ clientId.toUpper ++ "_" ++ toString dia ++ ".json"])

/-- controller.py:458-585 `run_period`: for each day of the range, fetch
the row-sets, build the auxiliary lookup and the payload, and save one
JSON file (unconditionally); afterwards, if at least one file was saved,
create the period archive (and upload when requested), otherwise log the
warning and skip archiving and upload.  The external collaborators
(database connection, filesystem, HTTP) are abstracted into the `fetch`
parameter and the recorded outcome; the optional non-fatal validation
logging (lines 517-524) adds log lines only and is not modelled. -/
def run_period (d0 d1 : Int) (fetch : Int → RowSets) (upload : Bool)
    (clientId codiqvia : String) : RunOutcome :=
  if ((daterange d0 d1).map (savedFileFor fetch clientId codiqvia)).isEmpty then
    { files := (daterange d0 d1).map (savedFileFor fetch clientId codiqvia)
      logs := dayLogsFor d0 d1 clientId ++
        ["⚠️ Nenhum arquivo JSON foi gerado.", "✔️ Período concluído."]
      archiveAttempted := false
      uploadAttempted := false }
  else
    { files := (daterange d0 d1).map (savedFileFor fetch clientId codiqvia)
      logs := dayLogsFor d0 d1 clientId ++ ["🗜️ Gerando ZIP do período..."] ++
        (if upload then ["🌐 Autenticando na IQVIA..."] else []) ++ ["✔️ Período concluído."]
      archiveAttempted := true
      uploadAttempted := upload }


/- -------- concrete inputs used by the claim theorems below -------- -/

/-- a concrete returns row with a negative source quantity. -/
def devRowNeg : DevRow :=
  { CODFILIAL := "1", CODCLI := "2", CODPROD := "3", DTSAIDA := some "2025-06-01",
    QT := some (-5) }

/-- the free-goods scenario row: unit price 0, no marker, catalog 19.90. -/
def movBrinde : MovRow :=
  { CODFILIAL := "1", CODCLI := "2", CODPROD := "3", DTSAIDA := some "2025-06-01",
    PUNIT := some 0, PTABELA := some (199/10), QT := some 1 }

/-- the scenario rows: empty primary code with an auxiliary entry, and a
row with no code anywhere. -/
def prodRowAux : ProdRow := { CODAUXILIAR := some "", CODPROD := some 1 }

/-- a product row with no identifying code anywhere. -/
def prodRowNone : ProdRow := { CODAUXILIAR := none, CODPROD := some 2 }

/-- the auxiliary lookup providing code 7891234567890 for product 1. -/
def lkW : List (Int × EntradaInfo) := [(1, { ean := "7891234567890", preco := 0 })]

/-- an inventory row resolving its code through the lookup. -/
def estRowW : EstRow :=
  { CODFILIAL := "1", CODAUXILIAR := none, CODPROD := some 1, ESTOQUEATUAL := some 7 }

/-- a concrete payload missing only the "vendas" key. -/
def pNoVendas : JObj := JObj.ofList
  [("data", .str "2025-06-01"), ("estabelecimentos", .list .nil), ("clientes", .list .nil),
   ("produtos", .list .nil), ("estoque", .list .nil)]

/-- a concrete payload missing "vendas" and binding "estoque" to a string. -/
def pEstoqueStr : JObj := JObj.ofList
  [("data", .str "2025-06-01"), ("estabelecimentos", .list .nil), ("clientes", .list .nil),
   ("produtos", .list .nil), ("estoque", .str "oops")]

/-- the all-empty data provider: every day's row-sets are empty. -/
def emptyFetch : Int → RowSets := fun _ => {}

/- ==================== general lemmas ==================== -/

lemma string_eq_of_data {s t : String} (h : s.data = t.data) : s = t := by
  cases s; cases t; exact congrArg String.mk h

lemma isEmpty_false_of_ne {s : String} (h : s ≠ "") : s.isEmpty = false := by
  cases hh : s.isEmpty
  · rfl
  · exact absurd ((String.isEmpty_iff s).mp hh) h

lemma only_digits_data (s : String) : (only_digits s).data = s.data.filter pyIsDigit := by
  unfold only_digits
  split
  · rename_i h
    rw [(String.isEmpty_iff s).mp h]
    rfl
  · rfl

lemma only_digits_all_digit (s : String) : ∀ c ∈ (only_digits s).data, pyIsDigit c = true := by
  rw [only_digits_data]
  exact fun c hc => (List.mem_filter.mp hc).2

lemma takeChars_length (s : String) (n : Nat) : (takeChars s n).length = min n s.length := by
  show (s.data.take n).length = min n s.data.length
  exact List.length_take n s.data

lemma zfill_digits (d : String) (w : Nat) (hd : ∀ c ∈ d.data, pyIsDigit c = true) :
    pyZfill d w =
      if w ≤ d.length then d else ⟨List.replicate (w - d.length) '0' ++ d.data⟩ := by
  unfold pyZfill
  split
  · rfl
  · rcases h : d.data with _ | ⟨c, cs⟩
    · have hlen : d.length = 0 := by show d.data.length = 0; rw [h]; rfl
      simp [hlen]
    · have hc : pyIsDigit c = true := hd c (by rw [h]; exact List.mem_cons_self c cs)
      have hplus : ¬(c = '+' ∨ c = '-') := by
        rintro (rfl | rfl) <;> simp [pyIsDigit, Char.isDigit] at hc
      simp only [hplus, if_false, h]

lemma pyZfill_digits_length (d : String) (w : Nat) (hd : ∀ c ∈ d.data, pyIsDigit c = true) :
    (pyZfill d w).length = max w d.length := by
  have hdl : d.length = d.data.length := rfl
  rw [zfill_digits d w hd]
  split
  · omega
  · show (List.replicate (w - d.length) '0' ++ d.data).length = max w d.length
    rw [List.length_append, List.length_replicate]
    omega

lemma take_pyZfill_length (d : String) (w : Nat) (hd : ∀ c ∈ d.data, pyIsDigit c = true) :
    (takeChars (pyZfill d w) w).length = w := by
  rw [takeChars_length, pyZfill_digits_length d w hd]
  omega

lemma take_pyZfill_short (d : String) (w : Nat) (hd : ∀ c ∈ d.data, pyIsDigit c = true)
    (hlen : d.length < w) :
    takeChars (pyZfill d w) w = ⟨List.replicate (w - d.length) '0' ++ d.data⟩ := by
  rw [zfill_digits d w hd, if_neg (by omega)]
  apply string_eq_of_data
  show (List.replicate (w - d.length) '0' ++ d.data).take w = _
  apply List.take_of_length_le
  have hdl : d.length = d.data.length := rfl
  rw [List.length_append, List.length_replicate]
  omega

/- ==================== claims ==================== -/

/-- C6: for every input whose cleaned form exceeds the maximum length,
`validate_field_length` returns a string of length exactly the maximum
that is a prefix of the cleaned input; the result is never longer than
the cleaned input. -/
theorem C6_truncate_exact (v : String) (maxLength : Nat) :
    (maxLength < (clean_text v).length →
      (validate_field_length v maxLength).length = maxLength ∧
      (validate_field_length v maxLength).data <+: (clean_text v).data) ∧
    (validate_field_length v maxLength).length ≤ (clean_text v).length := by
  unfold validate_field_length
  split
  · rename_i h
    refine ⟨fun _ => ⟨?_, ?_⟩, ?_⟩
    · rw [takeChars_length]; omega
    · exact List.take_prefix maxLength (clean_text v).data
    · rw [takeChars_length]; omega
  · rename_i h
    exact ⟨fun hc => absurd hc h, le_refl _⟩

/-- C6 witness: a concrete input longer than the bound. -/
theorem C6_truncate_exact_witness :
    3 < (clean_text "abcdef").length ∧
    (validate_field_length "abcdef" 3).length = 3 ∧
    (validate_field_length "abcdef" 3).data <+: (clean_text "abcdef").data := by
  have h := (C6_truncate_exact "abcdef" 3).1 (by decide)
  exact ⟨by decide, h.1, h.2⟩

/-- C7: for every non-empty input, the fixed-width formatters return a
string of length exactly the target width, and when the digit count is
below the width the result is the digit sequence right-aligned with
leading zeros. -/
theorem C7_zero_pad_width (s : String) (h : s ≠ "") :
    ((format_cep s).length = 8 ∧ (format_cnpj s).length = 14 ∧ (format_cpf s).length = 11) ∧
    ((only_digits s).length < 8 →
      format_cep s = ⟨List.replicate (8 - (only_digits s).length) '0' ++ (only_digits s).data⟩) ∧
    ((only_digits s).length < 14 →
      format_cnpj s = ⟨List.replicate (14 - (only_digits s).length) '0' ++ (only_digits s).data⟩) ∧
    ((only_digits s).length < 11 →
      format_cpf s = ⟨List.replicate (11 - (only_digits s).length) '0' ++ (only_digits s).data⟩) := by
  have he := isEmpty_false_of_ne h
  have hd := only_digits_all_digit s
  unfold format_cep format_cnpj format_cpf
  rw [he]
  simp only [Bool.false_eq_true, if_false]
  exact ⟨⟨take_pyZfill_length _ 8 hd, take_pyZfill_length _ 14 hd, take_pyZfill_length _ 11 hd⟩,
    fun hl => take_pyZfill_short _ 8 hd hl,
    fun hl => take_pyZfill_short _ 14 hd hl,
    fun hl => take_pyZfill_short _ 11 hd hl⟩

/-- C7 witness: the spec's example input. -/
theorem C7_zero_pad_width_witness :
    ("1234" : String) ≠ "" ∧ (only_digits "1234").length < 8 ∧
    format_cep "1234" = "00001234" ∧ (format_cnpj "1234").length = 14 := by
  have h := C7_zero_pad_width "1234" (by decide)
  exact ⟨by decide, by decide, (h.2.1 (by decide)).trans (by decide), h.1.2.1⟩

/-- C8: every formatter returns the empty string on empty input (a None
input follows the same falsy guard in the source). -/
theorem C8_empty_gives_empty :
    only_digits "" = "" ∧ format_cep "" = "" ∧ format_cnpj "" = "" ∧ format_cpf "" = "" ∧
    format_telefone "" = "" ∧ clean_text "" = "" ∧
    ∀ n : Nat, validate_field_length "" n = "" := by
  refine ⟨rfl, rfl, rfl, rfl, rfl, rfl, fun n => ?_⟩
  unfold validate_field_length
  rw [show clean_text "" = "" from rfl]
  rw [if_neg (by simp [String.length])]

/-- C10: a non-empty input with no digit characters yields the all-zero
string at the full width, not the empty string. -/
theorem C10_no_digit_gives_zeros (s : String) (h : s ≠ "")
    (hd : ∀ c ∈ s.data, pyIsDigit c = false) :
    format_cep s = "00000000" ∧ format_cnpj s = "00000000000000" ∧
    format_cpf s = "00000000000" ∧ format_cep s ≠ "" := by
  have he := isEmpty_false_of_ne h
  have hod : only_digits s = "" := by
    apply string_eq_of_data
    rw [only_digits_data]
    exact List.filter_eq_nil_iff.mpr (fun c hc => by simp [hd c hc])
  unfold format_cep format_cnpj format_cpf
  rw [he]
  simp only [Bool.false_eq_true, if_false]
  rw [hod]
  exact ⟨by decide, by decide, by decide, by decide⟩

/-- C10 witness: the input consisting of a single dash. -/
theorem C10_no_digit_gives_zeros_witness :
    ("-" : String) ≠ "" ∧ (∀ c ∈ ("-" : String).data, pyIsDigit c = false) ∧
    format_cep "-" = "00000000" ∧ format_cnpj "-" = "00000000000000" ∧
    format_cpf "-" = "00000000000" := by
  have h := C10_no_digit_gives_zeros "-" (by decide) (by decide)
  exact ⟨by decide, by decide, h.1, h.2.1, h.2.2.1⟩



/-- C1 counterexample: the return-line mapper applies no absolute value;
a source quantity of -5 is emitted as -5, not 5. -/
theorem C1_qt_counterexample :
    devRowNeg.QT = some (-5) ∧ (devolucaoOfRow devRowNeg).qt = -5 ∧
    (devolucaoOfRow devRowNeg).qt ≠ |(-5 : Int)| := by decide

/-- C1 amended: the emitted quantity is the source row's quantity
converted to an integer with default 0, passed through unchanged; it
equals the absolute value exactly when the source quantity is already
non-negative. -/
theorem C1_qt_passthrough (r : DevRow) :
    (devolucaoOfRow r).qt = r.QT.getD 0 ∧
    ((devolucaoOfRow r).qt = |r.QT.getD 0| ↔ 0 ≤ r.QT.getD 0) := by
  refine ⟨rfl, ?_⟩
  rw [show (devolucaoOfRow r).qt = r.QT.getD 0 from rfl]
  exact ⟨fun h => abs_eq_self.mp h.symm, fun h => (abs_of_nonneg h).symm⟩

/-- C2: a sale line is classified free-goods exactly when the rounded
unit price is zero or the marker is "S"; with zero unit price the
catalog price is substituted into both net and gross and into the
attached 100 percent discount block; non-free-goods lines carry no
discount block. -/
theorem C2_free_goods (r : MovRow) :
    ((vendaOfMov r).preco.desconto.isSome = true ↔
      (round2 (r.PUNIT.getD 0) = 0 ∨ r.BRINDE.getD "N" = "S")) ∧
    (round2 (r.PUNIT.getD 0) = 0 →
      (vendaOfMov r).preco.valor.liquido = round2 (r.PTABELA.getD 0) ∧
      (vendaOfMov r).preco.valor.bruto = round2 (r.PTABELA.getD 0) ∧
      (vendaOfMov r).preco.desconto =
        some { paraConsumidorFinal := 12, perc := 100, valor := round2 (r.PTABELA.getD 0) }) ∧
    (¬(round2 (r.PUNIT.getD 0) = 0 ∨ r.BRINDE.getD "N" = "S") →
      (vendaOfMov r).preco.desconto = none) := by
  by_cases hb : (round2 (r.PUNIT.getD 0) = 0 ∨ r.BRINDE.getD "N" = "S") <;>
    by_cases hz : round2 (r.PUNIT.getD 0) = 0 <;>
      simp [vendaOfMov, hb, hz]



/-- C2 witness: the scenario row is classified free-goods and reports
19.90 net and gross with a 100 percent discount block of value 19.90. -/
theorem C2_free_goods_witness :
    round2 (movBrinde.PUNIT.getD 0) = 0 ∧
    (vendaOfMov movBrinde).preco.valor.liquido = 199/10 ∧
    (vendaOfMov movBrinde).preco.valor.bruto = 199/10 ∧
    (vendaOfMov movBrinde).preco.desconto =
      some { paraConsumidorFinal := 12, perc := 100, valor := 199/10 } := by
  have h0 : round2 (movBrinde.PUNIT.getD 0) = 0 := by
    show round2 0 = 0
    rw [round2]
    norm_num
  have hp : round2 (movBrinde.PTABELA.getD 0) = 199/10 := by
    show round2 (199/10) = 199/10
    rw [round2]
    norm_num
  have h := (C2_free_goods movBrinde).2.1 h0
  refine ⟨h0, ?_, ?_, ?_⟩
  · rw [h.1, hp]
  · rw [h.2.1, hp]
  · rw [h.2.2, hp]

/-- C3: a product record is emitted iff an identifying code resolves
(primary first, auxiliary lookup as fallback); the resolved code, field
normalized, fills both eanSellIn and eanSellOut; the same gating holds
for inventory rows. -/
theorem C3_ean_gating (r : ProdRow) (e : EstRow) (lk : List (Int × EntradaInfo)) (dt : String) :
    ((prodRecord r lk).isSome = true ↔ resolvedEanProd r lk ≠ "") ∧
    (∀ p, prodRecord r lk = some p →
      p.eanSellIn = validate_field_length (resolvedEanProd r lk) 14 ∧
      p.eanSellOut = p.eanSellIn) ∧
    (r.CODAUXILIAR.getD "" ≠ "" → resolvedEanProd r lk = r.CODAUXILIAR.getD "") ∧
    ((estRecord dt e lk).isSome = true ↔ resolvedEanEst e lk ≠ "") := by
  refine ⟨?_, ?_, ?_, ?_⟩
  · unfold prodRecord
    split
    · rename_i h; simp [h]
    · rename_i h; simp [h]
  · intro p hp
    unfold prodRecord at hp
    rw [if_neg (by intro hc; rw [if_pos hc] at hp; exact Option.noConfusion hp)] at hp
    injection hp with hp
    rw [← hp]
    exact ⟨rfl, rfl⟩
  · intro hp
    unfold resolvedEanProd
    rcases h1 : r.CODPROD with _ | k
    · rfl
    · rcases h2 : dadosLookup lk k with _ | e2
      · simp [h2]
      · simp only [h2]
        rw [if_neg (fun hc => hp hc.1)]
  · unfold estRecord
    split
    · rename_i h; simp [h]
    · rename_i h; simp [h]









/-- C3 witness: the auxiliary code appears in both EAN fields; the row
with no code anywhere is dropped; the inventory row is emitted. -/
theorem C3_ean_gating_witness :
    resolvedEanProd prodRowAux lkW ≠ "" ∧
    (prodRecord prodRowAux lkW).isSome = true ∧
    (prodRecord prodRowAux lkW).map Produto.eanSellIn = some "7891234567890" ∧
    (prodRecord prodRowAux lkW).map Produto.eanSellOut = some "7891234567890" ∧
    prodRecord prodRowNone lkW = none ∧
    (estRecord "2025-06-01" estRowW lkW).isSome = true := by
  have h := C3_ean_gating prodRowAux estRowW lkW "2025-06-01"
  have h1 : (prodRecord prodRowAux lkW).isSome = true := h.1.mpr (by decide)
  refine ⟨by decide, h1, ?_, ?_, by decide, h.2.2.2.mpr (by decide)⟩ <;>
  · rcases hp : prodRecord prodRowAux lkW with _ | p
    · rw [hp] at h1; exact absurd h1 (by simp)
    · have h2 := h.2.1 p hp
      simp only [Option.map_some', h2.2, h2.1]
      decide

/- -------- lemmas for clean_text (C9) -------- -/

lemma isPrefixOf_eq_true_iff (l₁ l₂ : List Char) : List.isPrefixOf l₁ l₂ = true ↔ l₁ <+: l₂ := by
  induction l₁ generalizing l₂ with
  | nil => simp [List.isPrefixOf]
  | cons a as ih =>
    cases l₂ with
    | nil => simp [List.isPrefixOf]
    | cons b bs => simp [List.isPrefixOf, List.cons_prefix_cons, ih]

lemma replaceAllAux_no_occur (p : Char) (ps rep : List Char) :
    ∀ (fuel : Nat) (l : List Char), ¬((p :: ps) <:+: l) → replaceAllAux p ps rep fuel l = l := by
  intro fuel
  induction fuel with
  | zero => intro l _; cases l <;> rfl
  | succ fuel ih =>
    intro l h
    cases l with
    | nil => rfl
    | cons c cs =>
      have hpre : List.isPrefixOf (p :: ps) (c :: cs) = false := by
        cases hb : List.isPrefixOf (p :: ps) (c :: cs)
        · rfl
        · exact absurd ((isPrefixOf_eq_true_iff _ _).mp hb).isInfix h
      simp only [replaceAllAux, hpre, Bool.false_eq_true, if_false]
      exact congrArg (List.cons c) (ih cs fun hi => h (List.infix_cons hi))

lemma replaceAll_no_occur (l pat rep : List Char) (hne : pat ≠ []) (h : ¬(pat <:+: l)) :
    replaceAll l pat rep = l := by
  cases pat with
  | nil => exact absurd rfl hne
  | cons p ps => exact replaceAllAux_no_occur p ps rep l.length l h

lemma foldl_replaceAll_no_occur (l : List Char) :
    ∀ (tbl : List (List Char × List Char)),
      (∀ kv ∈ tbl, kv.1 ≠ [] ∧ ¬(kv.1 <:+: l)) →
      tbl.foldl (fun t kv => replaceAll t kv.1 kv.2) l = l := by
  intro tbl
  induction tbl with
  | nil => intro _; rfl
  | cons kv rest ih =>
    intro hh
    have h0 := hh kv (List.mem_cons_self kv rest)
    rw [List.foldl_cons, replaceAll_no_occur l kv.1 kv.2 h0.1 h0.2]
    exact ih fun x hx => hh x (List.mem_cons_of_mem kv hx)

lemma replacements_keys_ne_nil : ∀ kv ∈ replacements, kv.1 ≠ [] := by decide

lemma applyReplacements_no_occur (l : List Char)
    (h : ∀ kv ∈ replacements, ¬(kv.1 <:+: l)) : applyReplacements l = l :=
  foldl_replaceAll_no_occur l replacements
    (fun kv hkv => ⟨replacements_keys_ne_nil kv hkv, h kv hkv⟩)

lemma pyWordsAux_congr :
    ∀ (f₁ f₂ : Nat) (l : List Char), l.length ≤ f₁ → l.length ≤ f₂ →
      pyWordsAux f₁ l = pyWordsAux f₂ l := by
  intro f₁
  induction f₁ with
  | zero =>
    intro f₂ l h1 _
    rw [List.length_eq_zero.mp (Nat.le_zero.mp h1)]
    cases f₂ <;> rfl
  | succ f ih =>
    intro f₂ l h1 h2
    cases l with
    | nil => cases f₂ <;> rfl
    | cons c cs =>
      cases f₂ with
      | zero => simp at h2
      | succ g =>
        simp only [pyWordsAux]
        by_cases hc : pyIsSpace c = true
        · simp only [hc, if_true]
          exact ih g cs (by simp at h1; omega) (by simp at h2; omega)
        · simp only [hc, Bool.false_eq_true, if_false]
          have hdrop : ((c :: cs).dropWhile (fun x => !pyIsSpace x)).length ≤ cs.length := by
            rw [List.dropWhile_cons_of_pos (by simp [hc])]
            exact (List.dropWhile_sublist _).length_le
          exact congrArg _ (ih g _ (by simp at h1; omega) (by simp at h2; omega))

lemma pyWords_cons (c : Char) (cs : List Char) :
    pyWords (c :: cs) =
      if pyIsSpace c then pyWords cs
      else ((c :: cs).takeWhile (fun x => !pyIsSpace x)) ::
             pyWords ((c :: cs).dropWhile (fun x => !pyIsSpace x)) := by
  show pyWordsAux (c :: cs).length (c :: cs) = _
  rw [show (c :: cs).length = cs.length + 1 from rfl]
  simp only [pyWordsAux]
  by_cases hc : pyIsSpace c = true
  · simp only [hc, if_true]
    rfl
  · simp only [hc, Bool.false_eq_true, if_false]
    have hdrop : ((c :: cs).dropWhile (fun x => !pyIsSpace x)).length ≤ cs.length := by
      rw [List.dropWhile_cons_of_pos (by simp [hc])]
      exact (List.dropWhile_sublist _).length_le
    exact congrArg _ (pyWordsAux_congr cs.length _ _ hdrop (le_refl _))

lemma words_props :
    ∀ (n : Nat) (l : List Char), l.length ≤ n → ∀ w ∈ pyWords l,
      w ≠ [] ∧ (∀ c ∈ w, pyIsSpace c = false) ∧ (∀ c ∈ w, c ∈ l) := by
  intro n
  induction n with
  | zero =>
    intro l h1 w hw
    rw [List.length_eq_zero.mp (Nat.le_zero.mp h1)] at hw
    simp [pyWords, pyWordsAux] at hw
  | succ n ih =>
    intro l h1 w hw
    cases l with
    | nil => simp [pyWords, pyWordsAux] at hw
    | cons c cs =>
      rw [pyWords_cons] at hw
      by_cases hc : pyIsSpace c = true
      · rw [if_pos hc] at hw
        obtain ⟨h2, h3, h4⟩ := ih cs (by simp at h1; omega) w hw
        exact ⟨h2, h3, fun x hx => List.mem_cons_of_mem c (h4 x hx)⟩
      · rw [if_neg hc] at hw
        rcases List.mem_cons.mp hw with rfl | hw2
        · refine ⟨?_, ?_, ?_⟩
          · rw [List.takeWhile_cons_of_pos (by simp [hc])]
            exact List.cons_ne_nil _ _
          · intro x hx
            have := List.mem_takeWhile_imp hx
            simpa using this
          · exact fun x hx => (List.takeWhile_sublist _).subset hx
        · have hdrop : ((c :: cs).dropWhile (fun x => !pyIsSpace x)).length ≤ cs.length := by
            rw [List.dropWhile_cons_of_pos (by simp [hc])]
            exact (List.dropWhile_sublist _).length_le
          obtain ⟨h2, h3, h4⟩ := ih _ (by simp at h1; omega) w hw2
          exact ⟨h2, h3, fun x hx => (List.dropWhile_sublist _).subset (h4 x hx)⟩

lemma mem_joinWords :
    ∀ (ws : List (List Char)) (c : Char), c ∈ joinWords ws → c = ' ' ∨ ∃ w ∈ ws, c ∈ w := by
  intro ws
  induction ws with
  | nil => intro c hc; simp [joinWords] at hc
  | cons w ws ih =>
    intro c hc
    cases ws with
    | nil =>
      exact Or.inr ⟨w, List.mem_cons_self _ _, hc⟩
    | cons w2 ws2 =>
      rw [show joinWords (w :: w2 :: ws2) = w ++ (' ' :: joinWords (w2 :: ws2)) from rfl] at hc
      rcases List.mem_append.mp hc with h | h
      · exact Or.inr ⟨w, List.mem_cons_self _ _, h⟩
      · rcases List.mem_cons.mp h with rfl | h2
        · exact Or.inl rfl
        · rcases ih c h2 with h3 | ⟨w3, hw3, hc3⟩
          · exact Or.inl h3
          · exact Or.inr ⟨w3, List.mem_cons_of_mem _ hw3, hc3⟩

lemma takeWhile_word_append (w r : List Char)
    (hw : ∀ c ∈ w, pyIsSpace c = false) :
    (w ++ ' ' :: r).takeWhile (fun x => !pyIsSpace x) = w := by
  rw [List.takeWhile_append]
  have hself : w.takeWhile (fun x => !pyIsSpace x) = w :=
    List.takeWhile_eq_self_iff.mpr (fun a ha => by simp [hw a ha])
  rw [if_pos (by rw [hself])]
  rw [List.takeWhile_cons_of_neg (by decide)]
  simp

lemma dropWhile_word_append (w r : List Char)
    (hw : ∀ c ∈ w, pyIsSpace c = false) :
    (w ++ ' ' :: r).dropWhile (fun x => !pyIsSpace x) = ' ' :: r := by
  rw [List.dropWhile_append]
  have hself : w.dropWhile (fun x => !pyIsSpace x) = [] :=
    List.dropWhile_eq_nil_iff.mpr (fun a ha => by simp [hw a ha])
  rw [if_pos (by rw [hself]; rfl)]
  rw [List.dropWhile_cons_of_neg (by decide)]

lemma pyWords_joinWords :
    ∀ (ws : List (List Char)),
      (∀ w ∈ ws, w ≠ [] ∧ ∀ c ∈ w, pyIsSpace c = false) →
      pyWords (joinWords ws) = ws := by
  intro ws
  induction ws with
  | nil => intro _; rfl
  | cons w ws ih =>
    intro hh
    obtain ⟨hne, hsf⟩ := hh w (List.mem_cons_self _ _)
    cases w with
    | nil => exact absurd rfl hne
    | cons c wrest =>
      have hcs : pyIsSpace c = false := hsf c (List.mem_cons_self _ _)
      cases ws with
      | nil =>
        show pyWords (c :: wrest) = [c :: wrest]
        rw [pyWords_cons, if_neg (by simp [hcs])]
        have hself : (c :: wrest).takeWhile (fun x => !pyIsSpace x) = c :: wrest :=
          List.takeWhile_eq_self_iff.mpr (fun a ha => by simp [hsf a ha])
        have hdrop : (c :: wrest).dropWhile (fun x => !pyIsSpace x) = [] :=
          List.dropWhile_eq_nil_iff.mpr (fun a ha => by simp [hsf a ha])
        rw [hself, hdrop]
        rfl
      | cons w2 ws2 =>
        show pyWords ((c :: wrest) ++ ' ' :: joinWords (w2 :: ws2)) = (c :: wrest) :: w2 :: ws2
        rw [show (c :: wrest) ++ ' ' :: joinWords (w2 :: ws2) =
              c :: (wrest ++ ' ' :: joinWords (w2 :: ws2)) from rfl]
        rw [pyWords_cons, if_neg (by simp [hcs])]
        rw [show c :: (wrest ++ ' ' :: joinWords (w2 :: ws2)) =
              (c :: wrest) ++ ' ' :: joinWords (w2 :: ws2) from rfl]
        rw [takeWhile_word_append _ _ hsf, dropWhile_word_append _ _ hsf]
        rw [pyWords_cons, if_pos (by decide)]
        rw [ih (fun x hx => hh x (List.mem_cons_of_mem _ hx))]

lemma collapse_ws_idem (l : List Char) : collapse_ws (collapse_ws l) = collapse_ws l := by
  unfold collapse_ws
  rw [pyWords_joinWords (pyWords l)
    (fun w hw => ⟨(words_props l.length l (le_refl _) w hw).1,
                  (words_props l.length l (le_refl _) w hw).2.1⟩)]

lemma mem_collapse_ws (l : List Char) (c : Char) (h : c ∈ collapse_ws l) :
    c = ' ' ∨ c ∈ l := by
  rcases mem_joinWords (pyWords l) c h with h1 | ⟨w, hw, hc⟩
  · exact Or.inl h1
  · exact Or.inr ((words_props l.length l (le_refl _) w hw).2.2 c hc)

/-- C9 counterexample: the euro sign contains no replacement character
and none of the garbled substrings, yet `clean_text` erases it (the
re-encode heuristic also fires on any code point above 1000); and on a
clean input with a tab between Ã and B, `clean_text` is not idempotent,
because collapsing the tab to a space creates the table key Ã-space. -/
theorem C9_counterexample :
    (("€" : String).data.contains '�' = false ∧
      (∀ kv ∈ replacements, ¬(kv.1 <:+: ("€" : String).data)) ∧
      collapse_ws ("€" : String).data = ("€" : String).data ∧
      clean_text "€" = "" ∧ clean_text "€" ≠ "€") ∧
    (("AÃ\tB" : String).data.contains '�' = false ∧
      (("AÃ\tB" : String).data.all (fun c => c.toNat ≤ 1000)) = true ∧
      (∀ kv ∈ replacements, ¬(kv.1 <:+: ("AÃ\tB" : String).data)) ∧
      clean_text (clean_text "AÃ\tB") ≠ clean_text "AÃ\tB") := by decide

/-- C9 amended: for text with no replacement character, no code point
above 1000, and none of the garbled substrings, `clean_text` returns
exactly the whitespace-collapsed (and trimmed) input; it is idempotent
under the further condition that the collapsed form still contains none
of the garbled substrings. -/
theorem C9_clean_collapse (s : String)
    (h1 : s.data.contains '�' = false)
    (h2 : s.data.any (fun c => 1000 < c.toNat) = false)
    (h3 : ∀ kv ∈ replacements, ¬(kv.1 <:+: s.data)) :
    clean_text s = ⟨collapse_ws s.data⟩ ∧
    ((∀ kv ∈ replacements, ¬(kv.1 <:+: collapse_ws s.data)) →
      clean_text (clean_text s) = clean_text s) := by
  have hmain : clean_text s = ⟨collapse_ws s.data⟩ := by
    unfold clean_text
    by_cases he : s.isEmpty
    · rw [if_pos he, (String.isEmpty_iff s).mp he]
      rfl
    · rw [if_neg he, h1, h2]
      simp only [Bool.or_self, Bool.false_eq_true, if_false]
      rw [applyReplacements_no_occur s.data h3]
  refine ⟨hmain, fun h4 => ?_⟩
  rw [hmain]
  have hsub : ∀ x ∈ collapse_ws s.data, x = ' ' ∨ x ∈ s.data :=
    fun x hx => mem_collapse_ws s.data x hx
  have hc1 : (collapse_ws s.data).contains '�' = false := by
    cases hb : (collapse_ws s.data).contains '�'
    · rfl
    · have hmem : ('�' : Char) ∈ collapse_ws s.data := by
        simpa [List.contains] using hb
      rcases hsub _ hmem with hsp | hor
      · exact absurd hsp (by decide)
      · have hcon : s.data.contains '�' = true := by simpa [List.contains] using hor
        rw [hcon] at h1
        exact absurd h1 (by simp)
  have hc2 : (collapse_ws s.data).any (fun c => 1000 < c.toNat) = false := by
    rw [List.any_eq_false] at h2 ⊢
    intro x hx
    rcases hsub x hx with hsp | hor
    · subst hsp; decide
    · exact h2 x hor
  unfold clean_text
  by_cases hemp : (⟨collapse_ws s.data⟩ : String).isEmpty
  · rw [if_pos hemp]
    exact ((String.isEmpty_iff _).mp hemp).symm
  · rw [if_neg hemp]
    rw [show (⟨collapse_ws s.data⟩ : String).data = collapse_ws s.data from rfl]
    rw [hc1, hc2]
    simp only [Bool.or_self, Bool.false_eq_true, if_false]
    rw [applyReplacements_no_occur _ h4, collapse_ws_idem]

/-- C9 witness: a clean input with a double space collapses to a single
space and is a fixed point of `clean_text`. -/
theorem C9_clean_collapse_witness :
    (("a  b" : String).data.contains '�' = false ∧
     ("a  b" : String).data.any (fun c => 1000 < c.toNat) = false ∧
     (∀ kv ∈ replacements, ¬(kv.1 <:+: ("a  b" : String).data))) ∧
    clean_text "a  b" = "a b" ∧
    clean_text (clean_text "a  b") = clean_text "a  b" := by
  have h := C9_clean_collapse "a  b" (by decide) (by decide) (by decide)
  refine ⟨⟨by decide, by decide, by decide⟩, ?_, h.2 (by decide)⟩
  rw [h.1]
  decide

/- -------- lemmas for the validator (C4) -------- -/

lemma jsizeO_pos (o : JObj) : 1 ≤ jsizeO o := by
  cases o
  · simp [jsizeO]
  · simp [jsizeO]
    omega

lemma exists_append3 (p a b : String) : ∃ r, p ++ a ++ b = p ++ r :=
  ⟨a ++ b, String.append_assoc p a b⟩

lemma exists_append5 (p a b c d : String) : ∃ r, p ++ a ++ b ++ c ++ d = p ++ r :=
  ⟨a ++ (b ++ (c ++ d)), by simp [String.append_assoc]⟩

lemma validate_shape (fuel : Nat) :
    (∀ o spec path m, m ∈ validate_objF fuel o spec path → ∃ r, m = path ++ r) ∧
    (∀ okvs specl path m, m ∈ validateKeysF fuel okvs specl path → ∃ r, m = path ++ r) ∧
    (∀ rem i items tmpl path m, m ∈ validateItemsF fuel rem i items tmpl path →
      ∃ r, m = path ++ r) := by
  induction fuel with
  | zero =>
    refine ⟨?_, ?_, ?_⟩
    · intro o spec path m hm; simp [validate_objF] at hm
    · intro okvs specl path m hm; simp [validateKeysF] at hm
    · intro rem i items tmpl path m hm; simp [validateItemsF] at hm
  | succ f ih =>
    obtain ⟨ih1, ih2, ih3⟩ := ih
    refine ⟨?_, ?_, ?_⟩
    · intro o spec path m hm
      cases spec with
      | str t =>
        simp only [validate_objF] at hm
        split at hm
        · simp at hm
        · rw [List.mem_singleton.mp hm]
          exact exists_append5 _ _ _ _ _
      | obj kvs =>
        cases o <;> simp only [validate_objF] at hm <;>
          first
          | exact ih2 _ _ _ _ hm
          | (rw [List.mem_singleton.mp hm]
             exact exists_append3 _ _ _)
      | list spl =>
        cases o <;> simp only [validate_objF] at hm <;>
          first
          | (cases spl with
             | nil => simp at hm
             | cons tmpl rest => exact ih3 _ _ _ _ _ _ hm)
          | (rw [List.mem_singleton.mp hm]
             exact exists_append3 _ _ _)
      | int n => simp [validate_objF] at hm
      | float q => simp [validate_objF] at hm
      | null => simp [validate_objF] at hm
    · intro okvs specl path m hm
      cases specl with
      | nil => simp [validateKeysF] at hm
      | cons k sub rest =>
        simp only [validateKeysF] at hm
        rcases List.mem_append.mp hm with h | h
        · rcases hl : jlookup okvs k with _ | v
          · rw [hl] at h
            rw [List.mem_singleton.mp h]
            exact ⟨"." ++ k ++ ": campo obrigatório ausente", by simp [String.append_assoc]⟩
          · rw [hl] at h
            obtain ⟨r, hr⟩ := ih1 _ _ _ _ h
            exact ⟨"." ++ k ++ r, by rw [hr]; simp [String.append_assoc]⟩
        · exact ih2 _ _ _ _ h
    · intro rem i items tmpl path m hm
      cases items with
      | nil => simp [validateItemsF] at hm
      | cons item rest =>
        cases rem with
        | zero => simp [validateItemsF] at hm
        | succ rem =>
          simp only [validateItemsF] at hm
          rcases List.mem_append.mp hm with h | h
          · obtain ⟨r, hr⟩ := ih1 _ _ _ _ h
            exact ⟨"[" ++ toString i ++ "]" ++ r, by rw [hr]; simp [String.append_assoc]⟩
          · exact ih3 _ _ _ _ _ _ h

lemma namesPath_false_of_incomparable {m pre p : String} (r : String) (hm : m = pre ++ r)
    (h1 : ¬(p.data <+: pre.data)) (h2 : ¬(pre.data <+: p.data)) :
    namesPath m p = false := by
  cases hb : namesPath m p
  · rfl
  · exfalso
    have hpm : p.data <+: m.data := (isPrefixOf_eq_true_iff _ _).mp hb
    have hprem : pre.data <+: m.data := by
      rw [hm, String.data_append]
      exact List.prefix_append _ _
    rcases le_total p.data.length pre.data.length with hle | hle
    · exact h1 (List.prefix_of_prefix_length_le hpm hprem hle)
    · exact h2 (List.prefix_of_prefix_length_le hprem hpm hle)

lemma filter_not_named (fuel : Nat) (o sub : JValue) (pre p : String)
    (h1 : ¬(p.data <+: pre.data)) (h2 : ¬(pre.data <+: p.data)) :
    (validate_objF fuel o sub pre).filter (fun m => namesPath m p) = [] := by
  apply List.filter_eq_nil_iff.mpr
  intro m hm
  obtain ⟨r, hr⟩ := (validate_shape fuel).1 o sub pre m hm
  simp [namesPath_false_of_incomparable r hr h1 h2]

lemma validate_objF_obj_obj (f : Nat) (okvs kvs : JObj) (path : String) :
    validate_objF (f + 1) (.obj okvs) (.obj kvs) path = validateKeysF f okvs kvs path := rfl

lemma validateKeysF_cons (f : Nat) (okvs : JObj) (k : String) (sub : JValue) (rest : JObj)
    (path : String) :
    validateKeysF (f + 1) okvs (.cons k sub rest) path =
      (match jlookup okvs k with
       | none => [path ++ "." ++ k ++ ": campo obrigatório ausente"]
       | some v => validate_objF f v sub (path ++ "." ++ k)) ++
        validateKeysF f okvs rest path := rfl

lemma validateKeysF_nil (f : Nat) (okvs : JObj) (path : String) :
    validateKeysF (f + 1) okvs .nil path = [] := rfl

lemma validate_objF_str_list (f : Nat) (s : String) (spl : JList) (path : String) :
    validate_objF (f + 1) (.str s) (.list spl) path =
      [path ++ ": esperado lista, obtido " ++ "str"] := rfl

lemma filter_entry_nil {f : Nat} {look : Option JValue} {sub : JValue} {pre p tail : String}
    (h1 : ¬(p.data <+: pre.data)) (h2 : ¬(pre.data <+: p.data)) :
    ((match look with
      | none => [pre ++ tail]
      | some v => validate_objF f v sub pre).filter (fun m => namesPath m p)) = [] := by
  cases look with
  | none => simp [namesPath_false_of_incomparable tail rfl h1 h2]
  | some v => exact filter_not_named f v sub pre p h1 h2

lemma filter_opt_msg_none {p : String} {b : Bool} {msg : String}
    (h : namesPath msg p = false) :
    ((if b = true then [msg] else []).filter (fun m => namesPath m p)) = [] := by
  cases b <;> simp [h]


/-- C4 amended: a payload (an object) missing the "vendas" key gets
exactly two discrepancy messages naming that path, one from the
first-level required-key loop and one from the recursive walk; and a
payload binding "estoque" to a string gets the type-mismatch message
naming that path. -/
theorem C4_missing_vendas (p : JObj) :
    (jlookup p "vendas" = none →
      (validate_payload p FALLBACK_SPEC).filter (fun m => namesPath m "$.vendas") =
        ["$.vendas: ausente", "$.vendas: campo obrigatório ausente"]) ∧
    (∀ s, jlookup p "estoque" = some (.str s) →
      "$.estoque: esperado lista, obtido str" ∈ validate_payload p FALLBACK_SPEC) := by
  obtain ⟨kf, hkf⟩ : ∃ kf,
      jsizeV (.obj p) + jsizeV FALLBACK_SPEC = kf + 1 + 1 + 1 + 1 + 1 + 1 + 1 + 1 := by
    have h1 := jsizeO_pos p
    have h2 : 8 ≤ jsizeV FALLBACK_SPEC := by decide
    have h3 : jsizeV (.obj p) = 1 + jsizeO p := rfl
    exact ⟨jsizeV (.obj p) + jsizeV FALLBACK_SPEC - 8, by omega⟩
  constructor
  · intro hv
    unfold validate_payload validate_obj
    rw [hkf]
    simp only [FALLBACK_SPEC, ENDER_SPEC, JObj.ofList, JList.ofList]
    rw [validate_objF_obj_obj]
    simp only [validateKeysF_cons, validateKeysF_nil]
    rw [hv]
    simp only [List.flatMap_cons, List.flatMap_nil, List.filter_append, List.append_nil]
    rw [hv]
    rw [show (if (none : Option JValue).isNone = true then ["$." ++ "vendas" ++ ": ausente"]
          else ([] : List String)) = ["$." ++ "vendas" ++ ": ausente"] from rfl]
    rw [filter_opt_msg_none (by decide), filter_opt_msg_none (by decide),
        filter_opt_msg_none (by decide), filter_opt_msg_none (by decide),
        filter_opt_msg_none (by decide)]
    rw [filter_entry_nil (by decide) (by decide), filter_entry_nil (by decide) (by decide),
        filter_entry_nil (by decide) (by decide), filter_entry_nil (by decide) (by decide),
        filter_entry_nil (by decide) (by decide)]
    decide
  · intro s hs
    unfold validate_payload validate_obj
    rw [hkf]
    simp only [FALLBACK_SPEC, ENDER_SPEC, JObj.ofList, JList.ofList]
    rw [validate_objF_obj_obj]
    simp only [validateKeysF_cons, validateKeysF_nil]
    simp only [hs]
    rw [validate_objF_str_list]
    apply List.mem_append_right
    apply List.mem_append_right
    apply List.mem_append_right
    apply List.mem_append_right
    apply List.mem_append_right
    apply List.mem_append_right
    apply List.mem_append_left
    exact List.mem_singleton.mpr (by decide)



/-- C4 counterexample: a payload missing "vendas" receives two
discrepancies naming that path (the required-key loop and the recursive
walk each report it), not exactly one. -/
theorem C4_counterexample :
    jlookup pNoVendas "vendas" = none ∧
    validate_payload pNoVendas FALLBACK_SPEC =
      ["$.vendas: ausente", "$.vendas: campo obrigatório ausente"] ∧
    ((validate_payload pNoVendas FALLBACK_SPEC).filter
      (fun m => namesPath m "$.vendas")).length = 2 :=
  ⟨rfl, by decide, by decide⟩



/-- C4 witness: the amended statement at a concrete payload. -/
theorem C4_missing_vendas_witness :
    jlookup pEstoqueStr "vendas" = none ∧
    jlookup pEstoqueStr "estoque" = some (.str "oops") ∧
    (validate_payload pEstoqueStr FALLBACK_SPEC).filter (fun m => namesPath m "$.vendas") =
      ["$.vendas: ausente", "$.vendas: campo obrigatório ausente"] ∧
    "$.estoque: esperado lista, obtido str" ∈ validate_payload pEstoqueStr FALLBACK_SPEC :=
  ⟨rfl, rfl, (C4_missing_vendas pEstoqueStr).1 rfl,
    (C4_missing_vendas pEstoqueStr).2 "oops" rfl⟩

/- -------- lemmas for run_period (C5) -------- -/

lemma ne_of_data_head {s t : String} (h : s.data.head? ≠ t.data.head?) : s ≠ t :=
  fun hcon => h (congrArg (fun u => u.data.head?) hcon)

lemma head?_append_left (a x : String) (c : Char) (h : a.data.head? = some c) :
    (a ++ x).data.head? = some c := by
  rw [String.data_append]
  cases ha : a.data with
  | nil => rw [ha] at h; exact absurd h (by simp)
  | cons c2 cs =>
    rw [ha] at h
    simpa using h



/-- C5 counterexample: over the 30-day range with empty row-sets every
day, run_period still writes one file per day (30 files, each with all
entity sections empty), attempts the archive, and never logs the
no-files warning. -/
theorem C5_counterexample :
    (run_period 1 30 emptyFetch false "cli" "007").files.length = 30 ∧
    (run_period 1 30 emptyFetch false "cli" "007").archiveAttempted = true ∧
    "⚠️ Nenhum arquivo JSON foi gerado." ∉ (run_period 1 30 emptyFetch false "cli" "007").logs ∧
    ∀ f ∈ (run_period 1 30 emptyFetch false "cli" "007").files,
      f.payload.vendas = [] ∧ f.payload.vendasDevolucoesCancelamentos = [] ∧
      f.payload.estoque = [] ∧ f.payload.produtos = [] := by decide

/-- C5 amended: run_period writes exactly one file per day of the range,
for empty row-sets as well; zero output files, the warning, and the
skipped archive and upload occur exactly when the date range itself is
empty (d0 > d1). -/
theorem C5_files_per_day (d0 d1 : Int) (fetch : Int → RowSets) (upload : Bool)
    (cid ciq : String) :
    (run_period d0 d1 fetch upload cid ciq).files.length = (daterange d0 d1).length ∧
    (daterange d0 d1 = [] →
      (run_period d0 d1 fetch upload cid ciq).files = [] ∧
      "⚠️ Nenhum arquivo JSON foi gerado." ∈ (run_period d0 d1 fetch upload cid ciq).logs ∧
      (run_period d0 d1 fetch upload cid ciq).archiveAttempted = false ∧
      (run_period d0 d1 fetch upload cid ciq).uploadAttempted = false) ∧
    (daterange d0 d1 ≠ [] →
      (run_period d0 d1 fetch upload cid ciq).archiveAttempted = true ∧
      "⚠️ Nenhum arquivo JSON foi gerado." ∉ (run_period d0 d1 fetch upload cid ciq).logs) := by
  by_cases hdr : daterange d0 d1 = []
  · have hmap : (daterange d0 d1).map (savedFileFor fetch cid ciq) = [] := by
      rw [hdr]; rfl
    unfold run_period
    rw [hmap, if_pos (show (([] : List SavedFile)).isEmpty = true from rfl)]
    refine ⟨by rw [hdr]; rfl, fun _ => ⟨rfl, ?_, rfl, rfl⟩, fun hne => absurd hdr hne⟩
    exact List.mem_append_right _ (List.mem_cons_self _ _)
  · have hmap : ((daterange d0 d1).map (savedFileFor fetch cid ciq)).isEmpty = false := by
      cases hd : daterange d0 d1 with
      | nil => exact absurd hd hdr
      | cons a l => rfl
    have hcond : ¬(((daterange d0 d1).map (savedFileFor fetch cid ciq)).isEmpty = true) := by
      rw [hmap]; simp
    unfold run_period
    rw [if_neg hcond]
    refine ⟨List.length_map _ _, fun habs => absurd habs hdr, fun _ => ⟨rfl, ?_⟩⟩
    intro hmem
    rcases List.mem_append.mp hmem with hmem | hmem
    · rcases List.mem_append.mp hmem with hmem | hmem
      · rcases List.mem_append.mp hmem with hmem | hmem
        · unfold dayLogsFor at hmem
          rcases List.mem_flatMap.mp hmem with ⟨dia, _, hin⟩
          rcases List.mem_cons.mp hin with heq | hin
          · exact absurd heq (ne_of_data_head (by
              rw [head?_append_left "📊 Processando dia " (toString dia) '📊' rfl]
              decide))
          · rcases List.mem_cons.mp hin with heq | hin
            · exact absurd heq (ne_of_data_head (by
                rw [head?_append_left ("💾 JSON salvo: U_" ++ cid.toUpper ++ "_" ++ toString dia)
                  ".json" '💾'
                  (head?_append_left ("💾 JSON salvo: U_" ++ cid.toUpper ++ "_") (toString dia) '💾'
                    (head?_append_left ("💾 JSON salvo: U_" ++ cid.toUpper) "_" '💾'
                      (head?_append_left "💾 JSON salvo: U_" cid.toUpper '💾' rfl)))]
                decide))
            · simp at hin
        · exact absurd (List.mem_singleton.mp hmem) (by decide)
      · cases upload <;> simp at hmem
    · exact absurd (List.mem_singleton.mp hmem) (by decide)

/-- C5 witness: the empty range (1 to 0) gives zero files, the warning,
and no archive; the range 1 to 2 gives two files and an archive attempt. -/
theorem C5_files_per_day_witness :
    daterange 1 0 = [] ∧
    (run_period 1 0 emptyFetch false "cli" "007").files = [] ∧
    "⚠️ Nenhum arquivo JSON foi gerado." ∈ (run_period 1 0 emptyFetch false "cli" "007").logs ∧
    (run_period 1 0 emptyFetch false "cli" "007").archiveAttempted = false ∧
    daterange 1 2 ≠ [] ∧
    (run_period 1 2 emptyFetch true "cli" "007").archiveAttempted = true := by
  have h0 := (C5_files_per_day 1 0 emptyFetch false "cli" "007").2.1 (by decide)
  have h2 := (C5_files_per_day 1 2 emptyFetch true "cli" "007").2.2 (by decide)
  exact ⟨by decide, h0.1, h0.2.1, h0.2.2.1, by decide, h2.1⟩
